import Mathlib

/-
Verification of the BotMR recording-session controller
(src/frontend/app/screens/RecordingScreen.tsx) against its specification.

The screen component is embedded as an explicit state machine:
  - `RecordingState` mirrors the TypeScript interface of the same name
    (mode is the literal string "local" or "cloud", as in the source);
  - `ScreenState` adds the pieces of component state that live outside
    `recordingState`: the `recording` handle (Audio.Recording, modelled as
    an opaque Nat handle), the AsyncStorage contents, the active heartbeat
    interval (with the recordingState snapshot its closure captured), and
    observable side effects (toasts, alerts, outgoing requests, pings).
  - Each async primitive that can throw (fetch, Audio calls, AsyncStorage)
    is resolved by an oracle record (`StartEnv`, `StopEnv`, the `ok` flag of
    the pause handler) passed to the operation.
  - The timer/heartbeat useEffect (deps: isRecording, isPaused) is modelled
    by `withEffect`: after a handler runs, the effect body re-executes iff
    its dependencies changed; the heartbeat callback closes over the
    recordingState of the render that started it (`HBClosure`), which the
    source never refreshes on a mode change (its deps do not include mode).
  Vibration, animations and navigation are pure UI effects with no bearing
  on the claims and are not modelled.
-/

/-- One timeline marker, `{ time: number; label: string }` in the source. -/
structure Marker where
  time : Nat
  label : String

deriving instance DecidableEq for Marker

/-- Mirrors the `RecordingState` interface of RecordingScreen.tsx. -/
structure RecordingState where
  isRecording : Bool
  isPaused : Bool
  recordingTime : Nat
  mode : String
  sessionId : Option String
  markers : List Marker

deriving instance DecidableEq for RecordingState

/-- The queue item JSON written to AsyncStorage by queueRecordingForProcessing. -/
structure QueueItem where
  sessionId : String
  uri : Option String
  duration : Nat
  markers : List Marker
  timestamp : String
  status : String

deriving instance DecidableEq for QueueItem

/-- The snapshot of recordingState captured by the heartbeat interval's
closure when startHeartbeat created it (sessionId was non-null then, or the
interval was never created). -/
structure HBClosure where
  sessionId : String
  mode : String

deriving instance DecidableEq for HBClosure

/-- Body of a POST /api/recordings/heartbeat request. -/
structure Ping where
  sessionId : String
  deviceId : String
  ts : String

deriving instance DecidableEq for Ping

/-- Body of the POST /api/recordings/stop request sent during finalization. -/
structure StopRequest where
  sessionId : String
  final : Bool
  duration : Nat
  fileUri : Option String
  markers : List Marker

deriving instance DecidableEq for StopRequest

/-- Full component state of RecordingScreen plus its observable effects.
`storage` holds the AsyncStorage entries keyed by the string the code builds
("recording_" ++ sessionId); `queue` is the parsed recording_queue list. -/
structure ScreenState where
  recording : Option Nat
  recordingState : RecordingState
  storage : List (String × QueueItem)
  queue : List String
  hb : Option HBClosure
  toasts : List String
  alerts : List String
  stopRequests : List StopRequest
  pings : List Ping

deriving instance DecidableEq for ScreenState

/-- Oracle for one invocation of startRecording: whether requestPermissions
returned true, whether Audio.setAudioModeAsync succeeded, the outcome of the
session/start fetch (`none` = the fetch or its .json() threw; `some r` = a
response whose sessionId field is `r`), and the outcome of
Audio.Recording.createAsync (`none` = threw, `some h` = new handle). -/
structure StartEnv where
  permission : Bool
  audioConfigOk : Bool
  sessionResult : Option (Option String)
  audioResult : Option Nat

deriving instance DecidableEq for StartEnv

/-- Oracle for one invocation of stopRecording: whether stopAndUnloadAsync
succeeded, the uri returned by getURI, whether the remote stop fetch
succeeded, whether each AsyncStorage write succeeded, and the ISO timestamp
taken for the queue item. -/
structure StopEnv where
  unloadOk : Bool
  uri : Option String
  remoteOk : Bool
  itemWriteOk : Bool
  queueWriteOk : Bool
  ts : String

deriving instance DecidableEq for StopEnv

/-- The setInterval period of the heartbeat loop, in milliseconds. -/
def heartbeatIntervalMs : Nat := 10000

/-- The setInterval period of the 1-second timer, in milliseconds. -/
def timerIntervalMs : Nat := 1000

/-- Number.prototype.toString().padStart(2, the digit zero). -/
def pad2 (n : Nat) : String :=
  if n < 10 then "0" ++ toString n else toString n

/-- formatTime of RecordingScreen.tsx. -/
def formatTime (seconds : Nat) : String :=
  let hours := seconds / 3600
  let mins := (seconds % 3600) / 60
  let secs := seconds % 60
  if hours > 0 then
    pad2 hours ++ ":" ++ pad2 mins ++ ":" ++ pad2 secs
  else
    pad2 mins ++ ":" ++ pad2 secs

/-- AsyncStorage.setItem: overwrite the entry at the given key. -/
def setItem (st : List (String × QueueItem)) (key : String) (v : QueueItem) :
    List (String × QueueItem) :=
  (key, v) :: st.filter (fun p => p.1 ≠ key)

/-- startHeartbeat of RecordingScreen.tsx: creates the 10-second interval
unless the captured recordingState.sessionId is null; the returned closure
records the snapshot the interval callback will keep reading. -/
def startHeartbeat (rs : RecordingState) : Option HBClosure :=
  match rs.sessionId with
  | none => none
  | some sid => some { sessionId := sid, mode := rs.mode }

/-- The timer/heartbeat useEffect body (deps [isRecording, isPaused]): when
recording and not paused it starts the 1-second timer and the heartbeat;
otherwise it clears both intervals. The timer needs no state (its callback
uses a functional update); only the heartbeat closure is recorded. -/
def effectSync (s : ScreenState) : ScreenState :=
  if s.recordingState.isRecording && !s.recordingState.isPaused then
    { s with hb := startHeartbeat s.recordingState }
  else
    { s with hb := none }

/-- The dependency array of the timer/heartbeat useEffect. -/
def effectDeps (s : ScreenState) : Bool × Bool :=
  (s.recordingState.isRecording, s.recordingState.isPaused)

/-- Run a handler, then re-run the useEffect iff its dependencies changed
(React re-runs an effect only when a dep differs after a render). -/
def withEffect (f : ScreenState → ScreenState) (s : ScreenState) : ScreenState :=
  let s1 := f s
  if effectDeps s1 = effectDeps s then s1 else effectSync s1

/-- startRecording of RecordingScreen.tsx. Any thrown step lands in the
catch block, which alerts and leaves the state untouched; on success the
recording handle is stored and recordingState is updated by a functional
update that does NOT touch mode. requestPermissions handles its own alert
internally and is summarised by the permission flag. -/
def startRecording (env : StartEnv) (s : ScreenState) : ScreenState :=
  if env.permission = false then s
  else if env.audioConfigOk = false then
    { s with alerts := s.alerts ++ ["Failed to start recording. Please try again."] }
  else
    match env.sessionResult with
    | none =>
      { s with alerts := s.alerts ++ ["Failed to start recording. Please try again."] }
    | some sid =>
      match env.audioResult with
      | none =>
        { s with alerts := s.alerts ++ ["Failed to start recording. Please try again."] }
      | some h =>
        { s with
            recording := some h,
            recordingState := { s.recordingState with
              isRecording := true, isPaused := false, recordingTime := 0,
              sessionId := sid, markers := [] } }

/-- pauseRecording of RecordingScreen.tsx: a pause/resume toggle. Returns
unchanged when the recording handle is null; `ok` is the oracle for the
awaited startAsync/pauseAsync call (a throw is caught and only logged). -/
def pauseRecording (ok : Bool) (s : ScreenState) : ScreenState :=
  match s.recording with
  | none => s
  | some _ =>
    if ok = false then s
    else if s.recordingState.isPaused then
      { s with
          recordingState := { s.recordingState with isPaused := false },
          toasts := s.toasts ++ ["Recording resumed"] }
    else
      { s with
          recordingState := { s.recordingState with isPaused := true },
          toasts := s.toasts ++ ["Recording paused"] }

/-- addMarker of RecordingScreen.tsx (no state guard in the function itself;
the UI button is merely disabled while not recording). -/
def addMarker (s : ScreenState) : ScreenState :=
  let m : Marker :=
    { time := s.recordingState.recordingTime,
      label := "Marker " ++ toString (s.recordingState.markers.length + 1) }
  { s with
      recordingState :=
        { s.recordingState with markers := s.recordingState.markers ++ [m] },
      toasts :=
        s.toasts ++ ["Marker added at " ++ formatTime s.recordingState.recordingTime] }

/-- queueRecordingForProcessing of RecordingScreen.tsx. The whole body sits
in one try/catch whose handler only logs, so a throw at any await abandons
the remaining writes and returns with no error surfaced to the caller. -/
def queueRecordingForProcessing (env : StopEnv) (sessionId : String)
    (uri : Option String) (s : ScreenState) : ScreenState :=
  if env.remoteOk = false then s
  else
    let s1 := { s with stopRequests := s.stopRequests ++
      [{ sessionId := sessionId, final := true,
         duration := s.recordingState.recordingTime,
         fileUri := uri, markers := s.recordingState.markers }] }
    if env.itemWriteOk = false then s1
    else
      let item : QueueItem :=
        { sessionId := sessionId, uri := uri,
          duration := s.recordingState.recordingTime,
          markers := s.recordingState.markers,
          timestamp := env.ts, status := "pending_upload" }
      let s2 := { s1 with storage := setItem s1.storage ("recording_" ++ sessionId) item }
      if env.queueWriteOk = false then s2
      else { s2 with queue := s2.queue ++ [sessionId] }

/-- stopRecording of RecordingScreen.tsx: returns at once when the handle or
sessionId is null; otherwise sets isRecording/isPaused false, unloads the
recording (a throw here is caught, alerted, and leaves sessionId intact),
then queues (whose failures are swallowed inside it) and finally resets
recordingTime, sessionId and markers — again without touching mode. -/
def stopRecording (env : StopEnv) (s : ScreenState) : ScreenState :=
  match s.recording, s.recordingState.sessionId with
  | some _, some sid =>
    let s1 := { s with recordingState :=
      { s.recordingState with isRecording := false, isPaused := false } }
    if env.unloadOk = false then
      { s1 with alerts := s1.alerts ++ ["Failed to stop recording"] }
    else
      let s2 := { s1 with toasts :=
        s1.toasts ++ ["Recording saved. Processing in background..."] }
      let s3 := queueRecordingForProcessing env sid env.uri s2
      { s3 with
          recording := none,
          recordingState := { s3.recordingState with
            recordingTime := 0, sessionId := none, markers := [] } }
  | _, _ => s

/-- The 1-second timer callback; the interval only exists while
isRecording and not isPaused (the effect clears it otherwise), so a tick
elsewhere is a non-event. -/
def tick (s : ScreenState) : ScreenState :=
  if s.recordingState.isRecording && !s.recordingState.isPaused then
    { s with recordingState :=
      { s.recordingState with recordingTime := s.recordingState.recordingTime + 1 } }
  else s

/-- The heartbeat interval callback, reading the closure snapshot `c`:
it POSTs a ping built from the snapshot sessionId, a device id derived from
Date.now(), and an ISO timestamp; on fetch failure it checks the snapshot
mode and, when that is "local", toasts and sets the current mode to
"cloud" by a functional update. -/
def heartbeatTick (c : HBClosure) (now ts : String) (fails : Bool)
    (s : ScreenState) : ScreenState :=
  let p : Ping := { sessionId := c.sessionId, deviceId := "device_" ++ now, ts := ts }
  let s1 := { s with pings := s.pings ++ [p] }
  if fails then
    if c.mode = "local" then
      { s1 with
          recordingState := { s1.recordingState with mode := "cloud" },
          toasts := s1.toasts ++ ["Switched to cloud for continuity"] }
    else s1
  else s1

/-- External events that can hit the component: the user handlers (each
followed by the useEffect when its deps changed), a timer tick, and a
heartbeat tick (carrying Date.now() as a string, the ISO timestamp, and
whether the fetch fails). -/
inductive Event where
  | start (env : StartEnv)
  | pauseBtn (ok : Bool)
  | marker
  | stop (env : StopEnv)
  | tick
  | hb (now ts : String) (fails : Bool)

deriving instance DecidableEq for Event

/-- One step of the component. A heartbeat event is a non-event when no
heartbeat interval exists. -/
def step (e : Event) (s : ScreenState) : ScreenState :=
  match e with
  | .start env => withEffect (startRecording env) s
  | .pauseBtn ok => withEffect (pauseRecording ok) s
  | .marker => withEffect addMarker s
  | .stop env => withEffect (stopRecording env) s
  | .tick => tick s
  | .hb now ts fails =>
    match s.hb with
    | none => s
    | some c => heartbeatTick c now ts fails s

/-- Run a sequence of events. -/
def run (es : List Event) (s : ScreenState) : ScreenState :=
  es.foldl (fun t e => step e t) s

/-- The initial useState value of the screen. -/
def initState : ScreenState :=
  { recording := none,
    recordingState :=
      { isRecording := false, isPaused := false, recordingTime := 0,
        mode := "local", sessionId := none, markers := [] },
    storage := [], queue := [], hb := none,
    toasts := [], alerts := [], stopRequests := [], pings := [] }

/-- The record/stop toggle button of the controls row: pressing it invokes
stopRecording when isRecording, startRecording otherwise. -/
def pressRecordButton (sEnv : StartEnv) (tEnv : StopEnv) (s : ScreenState) :
    ScreenState :=
  if s.recordingState.isRecording then step (Event.stop tEnv) s
  else step (Event.start sEnv) s

/-! ### Shared concrete inputs -/

/-- A fully successful start oracle issuing session id S1. -/
def goodStartEnv : StartEnv :=
  { permission := true, audioConfigOk := true,
    sessionResult := some (some "S1"), audioResult := some 0 }

/-- A second successful start oracle issuing session id S2. -/
def goodStartEnv2 : StartEnv :=
  { permission := true, audioConfigOk := true,
    sessionResult := some (some "S2"), audioResult := some 1 }

/-- A fully successful stop oracle. -/
def goodStopEnv : StopEnv :=
  { unloadOk := true, uri := some "file:a.m4a", remoteOk := true,
    itemWriteOk := true, queueWriteOk := true, ts := "T0" }

/-- The screen right after a successful start from the initial state. -/
def sActive : ScreenState := step (Event.start goodStartEnv) initState

/-- The screen after that session has been paused. -/
def sPaused : ScreenState := step (Event.pauseBtn true) sActive

/-! ### Projection lemmas -/

theorem withEffect_def (f : ScreenState → ScreenState) (s : ScreenState) :
    withEffect f s =
      if effectDeps (f s) = effectDeps s then f s else effectSync (f s) := rfl

theorem effectSync_recordingState (s : ScreenState) :
    (effectSync s).recordingState = s.recordingState := by
  unfold effectSync; split <;> rfl

theorem effectSync_recording (s : ScreenState) :
    (effectSync s).recording = s.recording := by
  unfold effectSync; split <;> rfl

theorem effectSync_storage (s : ScreenState) :
    (effectSync s).storage = s.storage := by
  unfold effectSync; split <;> rfl

theorem effectSync_queue (s : ScreenState) :
    (effectSync s).queue = s.queue := by
  unfold effectSync; split <;> rfl

theorem effectSync_toasts (s : ScreenState) :
    (effectSync s).toasts = s.toasts := by
  unfold effectSync; split <;> rfl

theorem effectSync_alerts (s : ScreenState) :
    (effectSync s).alerts = s.alerts := by
  unfold effectSync; split <;> rfl

theorem effectSync_pings (s : ScreenState) :
    (effectSync s).pings = s.pings := by
  unfold effectSync; split <;> rfl

theorem withEffect_recordingState (f : ScreenState → ScreenState) (s : ScreenState) :
    (withEffect f s).recordingState = (f s).recordingState := by
  rw [withEffect_def]; split
  · rfl
  · exact effectSync_recordingState (f s)

theorem withEffect_recording (f : ScreenState → ScreenState) (s : ScreenState) :
    (withEffect f s).recording = (f s).recording := by
  rw [withEffect_def]; split
  · rfl
  · exact effectSync_recording (f s)

theorem withEffect_storage (f : ScreenState → ScreenState) (s : ScreenState) :
    (withEffect f s).storage = (f s).storage := by
  rw [withEffect_def]; split
  · rfl
  · exact effectSync_storage (f s)

theorem withEffect_queue (f : ScreenState → ScreenState) (s : ScreenState) :
    (withEffect f s).queue = (f s).queue := by
  rw [withEffect_def]; split
  · rfl
  · exact effectSync_queue (f s)

theorem withEffect_toasts (f : ScreenState → ScreenState) (s : ScreenState) :
    (withEffect f s).toasts = (f s).toasts := by
  rw [withEffect_def]; split
  · rfl
  · exact effectSync_toasts (f s)

theorem withEffect_alerts (f : ScreenState → ScreenState) (s : ScreenState) :
    (withEffect f s).alerts = (f s).alerts := by
  rw [withEffect_def]; split
  · rfl
  · exact effectSync_alerts (f s)

theorem withEffect_pings (f : ScreenState → ScreenState) (s : ScreenState) :
    (withEffect f s).pings = (f s).pings := by
  rw [withEffect_def]; split
  · rfl
  · exact effectSync_pings (f s)

/-! ### Per-operation preservation lemmas -/

theorem startRecording_mode (env : StartEnv) (s : ScreenState) :
    (startRecording env s).recordingState.mode = s.recordingState.mode := by
  rcases env with ⟨p, ac, sr, ar⟩
  cases p <;> cases ac <;> rcases sr with _ | sid <;> try rfl
  all_goals rcases ar with _ | h <;> rfl

theorem startRecording_hb (env : StartEnv) (s : ScreenState) :
    (startRecording env s).hb = s.hb := by
  rcases env with ⟨p, ac, sr, ar⟩
  cases p <;> cases ac <;> rcases sr with _ | sid <;> try rfl
  all_goals rcases ar with _ | h <;> rfl

theorem pauseRecording_mode (ok : Bool) (s : ScreenState) :
    (pauseRecording ok s).recordingState.mode = s.recordingState.mode := by
  unfold pauseRecording
  rcases s.recording with _ | r
  · rfl
  · cases ok
    · rfl
    · by_cases h : s.recordingState.isPaused <;> simp [h]

theorem pauseRecording_recordingTime (ok : Bool) (s : ScreenState) :
    (pauseRecording ok s).recordingState.recordingTime = s.recordingState.recordingTime := by
  unfold pauseRecording
  rcases s.recording with _ | r
  · rfl
  · cases ok
    · rfl
    · by_cases h : s.recordingState.isPaused <;> simp [h]

theorem pauseRecording_markers (ok : Bool) (s : ScreenState) :
    (pauseRecording ok s).recordingState.markers = s.recordingState.markers := by
  unfold pauseRecording
  rcases s.recording with _ | r
  · rfl
  · cases ok
    · rfl
    · by_cases h : s.recordingState.isPaused <;> simp [h]

theorem pauseRecording_hb (ok : Bool) (s : ScreenState) :
    (pauseRecording ok s).hb = s.hb := by
  unfold pauseRecording
  rcases s.recording with _ | r
  · rfl
  · cases ok
    · rfl
    · by_cases h : s.recordingState.isPaused <;> simp [h]

theorem addMarker_mode (s : ScreenState) :
    (addMarker s).recordingState.mode = s.recordingState.mode := rfl

theorem addMarker_recordingTime (s : ScreenState) :
    (addMarker s).recordingState.recordingTime = s.recordingState.recordingTime := rfl

theorem addMarker_markers (s : ScreenState) :
    (addMarker s).recordingState.markers =
      s.recordingState.markers ++
        [{ time := s.recordingState.recordingTime,
           label := "Marker " ++ toString (s.recordingState.markers.length + 1) }] := rfl

theorem addMarker_hb (s : ScreenState) : (addMarker s).hb = s.hb := rfl

theorem queueRecordingForProcessing_recordingState (env : StopEnv) (sid : String)
    (uri : Option String) (s : ScreenState) :
    (queueRecordingForProcessing env sid uri s).recordingState = s.recordingState := by
  unfold queueRecordingForProcessing
  rcases env with ⟨u, ur, r, iw, qw, t⟩
  cases r <;> cases iw <;> cases qw <;> rfl

theorem queueRecordingForProcessing_hb (env : StopEnv) (sid : String)
    (uri : Option String) (s : ScreenState) :
    (queueRecordingForProcessing env sid uri s).hb = s.hb := by
  unfold queueRecordingForProcessing
  rcases env with ⟨u, ur, r, iw, qw, t⟩
  cases r <;> cases iw <;> cases qw <;> rfl

theorem queueRecordingForProcessing_alerts (env : StopEnv) (sid : String)
    (uri : Option String) (s : ScreenState) :
    (queueRecordingForProcessing env sid uri s).alerts = s.alerts := by
  unfold queueRecordingForProcessing
  rcases env with ⟨u, ur, r, iw, qw, t⟩
  cases r <;> cases iw <;> cases qw <;> rfl

theorem stopRecording_mode (env : StopEnv) (s : ScreenState) :
    (stopRecording env s).recordingState.mode = s.recordingState.mode := by
  rcases s with ⟨rec, ⟨ir, ip, rt, md, sid, mk⟩, st, q, hb, ts, al, srq, pg⟩
  rcases env with ⟨u, ur, rm, iw, qw, t⟩
  rcases rec with _ | r <;> rcases sid with _ | i <;>
    cases u <;> cases rm <;> cases iw <;> cases qw <;> rfl

theorem stopRecording_recordingTime_le (env : StopEnv) (s : ScreenState) :
    (stopRecording env s).recordingState.recordingTime ≤ s.recordingState.recordingTime := by
  rcases s with ⟨rec, ⟨ir, ip, rt, md, sid, mk⟩, st, q, hb, ts, al, srq, pg⟩
  rcases env with ⟨u, ur, rm, iw, qw, t⟩
  rcases rec with _ | r <;> rcases sid with _ | i <;>
    cases u <;> cases rm <;> cases iw <;> cases qw <;> simp [stopRecording, queueRecordingForProcessing]

theorem stopRecording_hb (env : StopEnv) (s : ScreenState) :
    (stopRecording env s).hb = s.hb := by
  rcases s with ⟨rec, ⟨ir, ip, rt, md, sid, mk⟩, st, q, hb, ts, al, srq, pg⟩
  rcases env with ⟨u, ur, rm, iw, qw, t⟩
  rcases rec with _ | r <;> rcases sid with _ | i <;>
    cases u <;> cases rm <;> cases iw <;> cases qw <;> rfl

theorem tick_mode (s : ScreenState) :
    (tick s).recordingState.mode = s.recordingState.mode := by
  unfold tick; split <;> rfl

theorem tick_markers (s : ScreenState) :
    (tick s).recordingState.markers = s.recordingState.markers := by
  unfold tick; split <;> rfl

theorem tick_hb (s : ScreenState) : (tick s).hb = s.hb := by
  unfold tick; split <;> rfl

theorem tick_isRecording (s : ScreenState) :
    (tick s).recordingState.isRecording = s.recordingState.isRecording := by
  unfold tick; split <;> rfl

theorem tick_isPaused (s : ScreenState) :
    (tick s).recordingState.isPaused = s.recordingState.isPaused := by
  unfold tick; split <;> rfl

theorem heartbeatTick_mode (c : HBClosure) (now ts : String) (fails : Bool)
    (s : ScreenState) :
    (heartbeatTick c now ts fails s).recordingState.mode = s.recordingState.mode ∨
      (heartbeatTick c now ts fails s).recordingState.mode = "cloud" := by
  unfold heartbeatTick
  cases fails
  · exact Or.inl rfl
  · by_cases h : c.mode = "local" <;> simp [h]

theorem heartbeatTick_recordingTime (c : HBClosure) (now ts : String) (fails : Bool)
    (s : ScreenState) :
    (heartbeatTick c now ts fails s).recordingState.recordingTime =
      s.recordingState.recordingTime := by
  unfold heartbeatTick
  cases fails
  · rfl
  · by_cases h : c.mode = "local" <;> simp [h]

theorem heartbeatTick_markers (c : HBClosure) (now ts : String) (fails : Bool)
    (s : ScreenState) :
    (heartbeatTick c now ts fails s).recordingState.markers =
      s.recordingState.markers := by
  unfold heartbeatTick
  cases fails
  · rfl
  · by_cases h : c.mode = "local" <;> simp [h]

theorem heartbeatTick_hb (c : HBClosure) (now ts : String) (fails : Bool)
    (s : ScreenState) :
    (heartbeatTick c now ts fails s).hb = s.hb := by
  unfold heartbeatTick
  cases fails
  · rfl
  · by_cases h : c.mode = "local" <;> simp [h]

theorem heartbeatTick_isRecording (c : HBClosure) (now ts : String) (fails : Bool)
    (s : ScreenState) :
    (heartbeatTick c now ts fails s).recordingState.isRecording =
      s.recordingState.isRecording := by
  unfold heartbeatTick
  cases fails
  · rfl
  · by_cases h : c.mode = "local" <;> simp [h]

theorem heartbeatTick_isPaused (c : HBClosure) (now ts : String) (fails : Bool)
    (s : ScreenState) :
    (heartbeatTick c now ts fails s).recordingState.isPaused =
      s.recordingState.isPaused := by
  unfold heartbeatTick
  cases fails
  · rfl
  · by_cases h : c.mode = "local" <;> simp [h]

theorem heartbeatTick_pings (c : HBClosure) (now ts : String) (fails : Bool)
    (s : ScreenState) :
    (heartbeatTick c now ts fails s).pings =
      s.pings ++ [{ sessionId := c.sessionId, deviceId := "device_" ++ now, ts := ts }] := by
  unfold heartbeatTick
  cases fails
  · rfl
  · by_cases h : c.mode = "local" <;> simp [h]

/-! ### Step-level lemmas -/

/-- Events that begin or end a session (excluded from within-session traces). -/
def isStartOrStop : Event → Bool
  | .start _ => true
  | .stop _ => true
  | _ => false

/-- Number of addMarker invocations in an event sequence. -/
def countMarkers : List Event → Nat
  | [] => 0
  | e :: es => (if e = Event.marker then 1 else 0) + countMarkers es

/-- Number of steps of a trace at which the session mode changes value. -/
def countModeChanges : List Event → ScreenState → Nat
  | [], _ => 0
  | e :: es, s =>
    (if (step e s).recordingState.mode = s.recordingState.mode then 0 else 1)
      + countModeChanges es (step e s)

theorem step_mode (e : Event) (s : ScreenState) :
    (step e s).recordingState.mode = s.recordingState.mode ∨
      (step e s).recordingState.mode = "cloud" := by
  cases e with
  | start env =>
    refine Or.inl ?_
    show (withEffect (startRecording env) s).recordingState.mode = _
    rw [withEffect_recordingState]
    exact startRecording_mode env s
  | pauseBtn ok =>
    refine Or.inl ?_
    show (withEffect (pauseRecording ok) s).recordingState.mode = _
    rw [withEffect_recordingState]
    exact pauseRecording_mode ok s
  | marker =>
    refine Or.inl ?_
    show (withEffect addMarker s).recordingState.mode = _
    rw [withEffect_recordingState]
    exact addMarker_mode s
  | stop env =>
    refine Or.inl ?_
    show (withEffect (stopRecording env) s).recordingState.mode = _
    rw [withEffect_recordingState]
    exact stopRecording_mode env s
  | tick => exact Or.inl (tick_mode s)
  | hb now ts fails =>
    cases hhb : s.hb with
    | none => exact Or.inl (by simp [step, hhb])
    | some c =>
      have hstep : step (Event.hb now ts fails) s = heartbeatTick c now ts fails s := by
        simp [step, hhb]
      rw [hstep]
      exact heartbeatTick_mode c now ts fails s

theorem step_cloud (e : Event) (s : ScreenState)
    (h : s.recordingState.mode = "cloud") :
    (step e s).recordingState.mode = "cloud" := by
  rcases step_mode e s with h1 | h1
  · rw [h1, h]
  · exact h1

theorem run_cloud (es : List Event) (s : ScreenState)
    (h : s.recordingState.mode = "cloud") :
    (run es s).recordingState.mode = "cloud" := by
  induction es generalizing s with
  | nil => exact h
  | cons e es ih => exact ih (step e s) (step_cloud e s h)

theorem countModeChanges_cloud (es : List Event) (s : ScreenState)
    (h : s.recordingState.mode = "cloud") :
    countModeChanges es s = 0 := by
  induction es generalizing s with
  | nil => rfl
  | cons e es ih =>
    unfold countModeChanges
    rw [if_pos ((step_cloud e s h).trans h.symm), ih (step e s) (step_cloud e s h)]

theorem countModeChanges_le_one (es : List Event) (s : ScreenState) :
    countModeChanges es s ≤ 1 := by
  induction es generalizing s with
  | nil => exact Nat.zero_le 1
  | cons e es ih =>
    unfold countModeChanges
    by_cases h : (step e s).recordingState.mode = s.recordingState.mode
    · rw [if_pos h]
      exact Nat.le_trans (Nat.le_of_eq (Nat.zero_add _)) (ih (step e s))
    · rw [if_neg h]
      have hc : (step e s).recordingState.mode = "cloud" := by
        rcases step_mode e s with h1 | h1
        · exact absurd h1 h
        · exact h1
      rw [countModeChanges_cloud es (step e s) hc]

theorem step_recordingTime_mono (e : Event) (s : ScreenState)
    (h : isStartOrStop e = false) :
    s.recordingState.recordingTime ≤ (step e s).recordingState.recordingTime := by
  cases e with
  | start env => exact absurd h (by simp [isStartOrStop])
  | stop env => exact absurd h (by simp [isStartOrStop])
  | pauseBtn ok =>
    refine Nat.le_of_eq ?_
    show _ = (withEffect (pauseRecording ok) s).recordingState.recordingTime
    rw [withEffect_recordingState, pauseRecording_recordingTime]
  | marker =>
    refine Nat.le_of_eq ?_
    show _ = (withEffect addMarker s).recordingState.recordingTime
    rw [withEffect_recordingState, addMarker_recordingTime]
  | tick =>
    show _ ≤ (tick s).recordingState.recordingTime
    unfold tick
    split
    · exact Nat.le_succ _
    · exact Nat.le_refl _
  | hb now ts fails =>
    cases hhb : s.hb with
    | none => simp [step, hhb]
    | some c =>
      have hstep : step (Event.hb now ts fails) s = heartbeatTick c now ts fails s := by
        simp [step, hhb]
      rw [hstep, heartbeatTick_recordingTime]

theorem run_recordingTime_mono (es : List Event) (s : ScreenState)
    (h : ∀ e ∈ es, isStartOrStop e = false) :
    s.recordingState.recordingTime ≤ (run es s).recordingState.recordingTime := by
  induction es generalizing s with
  | nil => exact Nat.le_refl _
  | cons e es ih =>
    exact Nat.le_trans
      (step_recordingTime_mono e s (h e (List.mem_cons_self e es)))
      (ih (step e s) (fun x hx => h x (List.mem_cons_of_mem e hx)))

theorem step_markers_append (e : Event) (s : ScreenState)
    (h : isStartOrStop e = false) :
    ∃ t : List Marker,
      (step e s).recordingState.markers = s.recordingState.markers ++ t ∧
        t.length = (if e = Event.marker then 1 else 0) := by
  cases e with
  | start env => exact absurd h (by simp [isStartOrStop])
  | stop env => exact absurd h (by simp [isStartOrStop])
  | pauseBtn ok =>
    refine ⟨[], ?_, rfl⟩
    show (withEffect (pauseRecording ok) s).recordingState.markers = _
    rw [withEffect_recordingState, pauseRecording_markers, List.append_nil]
  | marker =>
    refine ⟨[{ time := s.recordingState.recordingTime,
               label := "Marker " ++ toString (s.recordingState.markers.length + 1) }], ?_, rfl⟩
    show (withEffect addMarker s).recordingState.markers = _
    rw [withEffect_recordingState, addMarker_markers]
  | tick =>
    refine ⟨[], ?_, rfl⟩
    show (tick s).recordingState.markers = _
    rw [tick_markers, List.append_nil]
  | hb now ts fails =>
    refine ⟨[], ?_, rfl⟩
    cases hhb : s.hb with
    | none => simp [step, hhb]
    | some c =>
      have hstep : step (Event.hb now ts fails) s = heartbeatTick c now ts fails s := by
        simp [step, hhb]
      rw [hstep, heartbeatTick_markers, List.append_nil]

theorem run_markers_append (es : List Event) (s : ScreenState)
    (h : ∀ e ∈ es, isStartOrStop e = false) :
    ∃ t : List Marker,
      (run es s).recordingState.markers = s.recordingState.markers ++ t ∧
        t.length = countMarkers es := by
  induction es generalizing s with
  | nil => exact ⟨[], (List.append_nil _).symm, rfl⟩
  | cons e es ih =>
    obtain ⟨t1, ht1, hl1⟩ := step_markers_append e s (h e (List.mem_cons_self e es))
    obtain ⟨t2, ht2, hl2⟩ := ih (step e s) (fun x hx => h x (List.mem_cons_of_mem e hx))
    refine ⟨t1 ++ t2, ?_, ?_⟩
    · show (run es (step e s)).recordingState.markers = _
      rw [ht2, ht1, List.append_assoc]
    · rw [List.length_append, hl1, hl2]
      rfl

/-! ### Heartbeat-interval invariant -/

/-- The heartbeat interval exists only while the component is recording and
not paused (the useEffect clears it on every other dependency change). -/
def HBInv (s : ScreenState) : Prop :=
  s.hb.isSome = true →
    s.recordingState.isRecording = true ∧ s.recordingState.isPaused = false

theorem HBInv_effectSync (s : ScreenState) : HBInv (effectSync s) := by
  unfold HBInv effectSync
  by_cases h : (s.recordingState.isRecording && !s.recordingState.isPaused) = true
  · rw [if_pos h]
    intro _
    have h' := h
    simp at h'
    exact h'
  · rw [if_neg h]
    intro hh
    simp at hh

theorem HBInv_withEffect (f : ScreenState → ScreenState) (s : ScreenState)
    (hhb : (f s).hb = s.hb) (hinv : HBInv s) : HBInv (withEffect f s) := by
  rw [withEffect_def]
  split
  case isTrue hdeps =>
    unfold HBInv
    intro hsome
    have hp := hinv (by rw [hhb] at hsome; exact hsome)
    have h1 : (f s).recordingState.isRecording = s.recordingState.isRecording :=
      congrArg Prod.fst hdeps
    have h2 : (f s).recordingState.isPaused = s.recordingState.isPaused :=
      congrArg Prod.snd hdeps
    exact ⟨h1.trans hp.1, h2.trans hp.2⟩
  case isFalse => exact HBInv_effectSync (f s)

theorem HBInv_step (e : Event) (s : ScreenState) (h : HBInv s) : HBInv (step e s) := by
  cases e with
  | start env => exact HBInv_withEffect _ s (startRecording_hb env s) h
  | pauseBtn ok => exact HBInv_withEffect _ s (pauseRecording_hb ok s) h
  | marker => exact HBInv_withEffect _ s (addMarker_hb s) h
  | stop env => exact HBInv_withEffect _ s (stopRecording_hb env s) h
  | tick =>
    have hstep : step Event.tick s = tick s := rfl
    unfold HBInv
    rw [hstep]
    intro hsome
    rw [tick_isRecording, tick_isPaused]
    exact h (by rw [tick_hb] at hsome; exact hsome)
  | hb now ts fails =>
    cases hhb : s.hb with
    | none =>
      have hstep : step (Event.hb now ts fails) s = s := by simp [step, hhb]
      rw [hstep]; exact h
    | some c =>
      have hstep : step (Event.hb now ts fails) s = heartbeatTick c now ts fails s := by
        simp [step, hhb]
      rw [hstep]
      unfold HBInv
      intro hsome
      rw [heartbeatTick_isRecording, heartbeatTick_isPaused]
      exact h (by rw [heartbeatTick_hb] at hsome; exact hsome)

/-! ### No-op stops -/

theorem withEffect_id_of_fix (f : ScreenState → ScreenState) (s : ScreenState)
    (h : f s = s) : withEffect f s = s := by
  rw [withEffect_def, h, if_pos rfl]

theorem stopRecording_noRecording (env : StopEnv) (s : ScreenState)
    (h : s.recording = none) : stopRecording env s = s := by
  cases hs : s.recordingState.sessionId <;> simp [stopRecording, h, hs]

theorem stopRecording_noSession (env : StopEnv) (s : ScreenState)
    (h : s.recordingState.sessionId = none) : stopRecording env s = s := by
  cases hr : s.recording <;> simp [stopRecording, h, hr]

theorem effectSync_stopRequests (s : ScreenState) :
    (effectSync s).stopRequests = s.stopRequests := by
  unfold effectSync; split <;> rfl

theorem withEffect_stopRequests (f : ScreenState → ScreenState) (s : ScreenState) :
    (withEffect f s).stopRequests = (f s).stopRequests := by
  rw [withEffect_def]; split
  · rfl
  · exact effectSync_stopRequests (f s)

/-! ### Claims -/

/-- C2: recordingTimeSeconds increases by 1 per 1-second tick only while
isRecording is true and isPaused is false (a tick in any other state is a
no-op), it is monotonically non-decreasing along any trace that contains no
start and no stop, and it is reset to 0 by every successful start and by
every successful stop. -/
theorem spec_C2 :
    (∀ s : ScreenState,
        s.recordingState.isRecording = true → s.recordingState.isPaused = false →
        (step Event.tick s).recordingState.recordingTime
          = s.recordingState.recordingTime + 1)
  ∧ (∀ s : ScreenState,
        (s.recordingState.isRecording = false ∨ s.recordingState.isPaused = true) →
        step Event.tick s = s)
  ∧ (∀ (s : ScreenState) (es : List Event),
        (∀ e ∈ es, isStartOrStop e = false) →
        s.recordingState.recordingTime ≤ (run es s).recordingState.recordingTime)
  ∧ (∀ (s : ScreenState) (env : StartEnv) (r : Option String) (a : Nat),
        env.permission = true → env.audioConfigOk = true →
        env.sessionResult = some r → env.audioResult = some a →
        (step (Event.start env) s).recordingState.recordingTime = 0)
  ∧ (∀ (s : ScreenState) (env : StopEnv) (a : Nat) (sid : String),
        s.recording = some a → s.recordingState.sessionId = some sid →
        env.unloadOk = true →
        (step (Event.stop env) s).recordingState.recordingTime = 0) := by
  refine ⟨?_, ?_, ?_, ?_, ?_⟩
  · intro s h1 h2
    show (tick s).recordingState.recordingTime = _
    simp [tick, h1, h2]
  · intro s h
    show tick s = s
    rcases h with h | h <;> simp [tick, h]
  · intro s es h
    exact run_recordingTime_mono es s h
  · intro s env r a hp hac hsr har
    show (withEffect (startRecording env) s).recordingState.recordingTime = 0
    rw [withEffect_recordingState]
    rcases env with ⟨p, ac, sr, ar⟩
    cases hp; cases hac; cases hsr; cases har
    rfl
  · intro s env a sid hr hs hu
    show (withEffect (stopRecording env) s).recordingState.recordingTime = 0
    rw [withEffect_recordingState]
    simp [stopRecording, hr, hs, hu]

/-- C2 witness: concrete instances of each hypothesised conjunct. -/
theorem spec_C2_witness :
    (step Event.tick sActive).recordingState.recordingTime
        = sActive.recordingState.recordingTime + 1
  ∧ step Event.tick sPaused = sPaused
  ∧ (step (Event.start goodStartEnv) initState).recordingState.recordingTime = 0
  ∧ (step (Event.stop goodStopEnv) sActive).recordingState.recordingTime = 0 :=
  ⟨spec_C2.1 sActive (by decide) (by decide),
   spec_C2.2.1 sPaused (Or.inr (by decide)),
   spec_C2.2.2.2.1 initState goodStartEnv (some "S1") 0 rfl rfl rfl rfl,
   spec_C2.2.2.2.2 sActive goodStopEnv 0 "S1" (by decide) (by decide) rfl⟩

/-- C3: a heartbeat failure observed while the interval's closure snapshot
still reads mode local sets mode to cloud and emits the user-visible toast;
once mode is cloud, no event of any kind (heartbeat failure or success
included) ever changes it back; and along any trace the mode value changes
at most once. -/
theorem spec_C3 :
    (∀ (s : ScreenState) (c : HBClosure) (now ts : String),
        s.hb = some c → c.mode = "local" →
        (step (Event.hb now ts true) s).recordingState.mode = "cloud"
          ∧ (step (Event.hb now ts true) s).toasts
              = s.toasts ++ ["Switched to cloud for continuity"])
  ∧ (∀ (s : ScreenState) (e : Event), s.recordingState.mode = "cloud" →
        (step e s).recordingState.mode = "cloud")
  ∧ (∀ (es : List Event) (s : ScreenState), countModeChanges es s ≤ 1) := by
  refine ⟨?_, ?_, ?_⟩
  · intro s c now ts hhb hc
    have hstep : step (Event.hb now ts true) s = heartbeatTick c now ts true s := by
      simp [step, hhb]
    rw [hstep]
    unfold heartbeatTick
    simp [hc]
  · intro s e h
    exact step_cloud e s h
  · intro es s
    exact countModeChanges_le_one es s

/-- C3 witness: the first failed heartbeat of a freshly started session
flips the mode and toasts; a failure in cloud mode leaves it cloud. -/
theorem spec_C3_witness :
    ((step (Event.hb "1" "t1" true) sActive).recordingState.mode = "cloud"
      ∧ (step (Event.hb "1" "t1" true) sActive).toasts
          = sActive.toasts ++ ["Switched to cloud for continuity"])
  ∧ (step (Event.hb "2" "t2" true) (step (Event.hb "1" "t1" true) sActive)).recordingState.mode
      = "cloud" :=
  ⟨spec_C3.1 sActive ⟨"S1", "local"⟩ "1" "t1" (by decide) rfl,
   spec_C3.2.1 (step (Event.hb "1" "t1" true) sActive) (Event.hb "2" "t2" true) (by decide)⟩

/-- C7: addMarker appends exactly one marker whose time is the current
recordingTimeSeconds to the end of the marker list; along any trace without
start/stop the earlier markers survive as a prefix and the length grows by
exactly the number of addMarker calls; hence k addMarker calls during an
uninterrupted recording that began with a successful start leave exactly k
markers. -/
theorem spec_C7 :
    (∀ s : ScreenState,
        (step Event.marker s).recordingState.markers
          = s.recordingState.markers ++
            [{ time := s.recordingState.recordingTime,
               label := "Marker " ++ toString (s.recordingState.markers.length + 1) }])
  ∧ (∀ (s : ScreenState) (es : List Event),
        (∀ e ∈ es, isStartOrStop e = false) →
        ∃ t, (run es s).recordingState.markers = s.recordingState.markers ++ t)
  ∧ (∀ (s : ScreenState) (es : List Event),
        (∀ e ∈ es, isStartOrStop e = false) →
        (run es s).recordingState.markers.length
          = s.recordingState.markers.length + countMarkers es)
  ∧ (∀ (s : ScreenState) (env : StartEnv) (r : Option String) (a : Nat)
        (es : List Event),
        env.permission = true → env.audioConfigOk = true →
        env.sessionResult = some r → env.audioResult = some a →
        (∀ e ∈ es, isStartOrStop e = false) →
        (run es (step (Event.start env) s)).recordingState.markers.length
          = countMarkers es) := by
  refine ⟨?_, ?_, ?_, ?_⟩
  · intro s
    show (withEffect addMarker s).recordingState.markers = _
    rw [withEffect_recordingState, addMarker_markers]
  · intro s es h
    obtain ⟨t, ht, _⟩ := run_markers_append es s h
    exact ⟨t, ht⟩
  · intro s es h
    obtain ⟨t, ht, hl⟩ := run_markers_append es s h
    rw [ht, List.length_append, hl]
  · intro s env r a es hp hac hsr har hes
    have hm : (step (Event.start env) s).recordingState.markers = [] := by
      show (withEffect (startRecording env) s).recordingState.markers = []
      rw [withEffect_recordingState]
      rcases env with ⟨p, ac, sr, ar⟩
      cases hp; cases hac; cases hsr; cases har
      rfl
    obtain ⟨t, ht, hl⟩ := run_markers_append es _ hes
    rw [ht, hm, List.nil_append, hl]

/-- C7 witness: one tick then two markers after a successful start yield
exactly two markers, and a marker records the current time. -/
theorem spec_C7_witness :
    (run [Event.tick, Event.marker, Event.marker]
        (step (Event.start goodStartEnv) initState)).recordingState.markers.length
      = countMarkers [Event.tick, Event.marker, Event.marker]
  ∧ (step Event.marker sActive).recordingState.markers
      = sActive.recordingState.markers ++
        [{ time := sActive.recordingState.recordingTime,
           label := "Marker " ++ toString (sActive.recordingState.markers.length + 1) }] :=
  ⟨spec_C7.2.2.2 initState goodStartEnv (some "S1") 0
      [Event.tick, Event.marker, Event.marker] rfl rfl rfl rfl (by decide),
   spec_C7.1 sActive⟩

/-- C10: when the start response carries no sessionId, start still sets
isRecording true with a null sessionId, and from that state every stop call
is an immediate no-op: the state (capture handle, storage, queue included)
is unchanged, so the session cannot be finalized through stop. -/
theorem spec_C10 : ∀ (s : ScreenState) (env : StartEnv) (a : Nat),
    env.permission = true → env.audioConfigOk = true →
    env.sessionResult = some none → env.audioResult = some a →
    (step (Event.start env) s).recordingState.isRecording = true
  ∧ (step (Event.start env) s).recordingState.sessionId = none
  ∧ ∀ env2 : StopEnv,
      step (Event.stop env2) (step (Event.start env) s) = step (Event.start env) s := by
  intro s env a hp hac hsr har
  rcases env with ⟨p, ac, sr, ar⟩
  cases hp; cases hac; cases hsr; cases har
  have hsid : (step (Event.start ⟨true, true, some none, some a⟩) s).recordingState.sessionId
      = none := by
    show (withEffect (startRecording _) s).recordingState.sessionId = none
    rw [withEffect_recordingState]
    rfl
  refine ⟨?_, hsid, ?_⟩
  · show (withEffect (startRecording _) s).recordingState.isRecording = true
    rw [withEffect_recordingState]
    rfl
  · intro env2
    exact withEffect_id_of_fix _ _ (stopRecording_noSession env2 _ hsid)

/-- C10 witness: a concrete start whose response has no sessionId, followed
by a stop that changes nothing. -/
theorem spec_C10_witness :
    (step (Event.start ⟨true, true, some none, some 2⟩) initState).recordingState.isRecording
        = true
  ∧ step (Event.stop goodStopEnv)
        (step (Event.start ⟨true, true, some none, some 2⟩) initState)
      = step (Event.start ⟨true, true, some none, some 2⟩) initState :=
  ⟨(spec_C10 initState ⟨true, true, some none, some 2⟩ 2 rfl rfl rfl rfl).1,
   (spec_C10 initState ⟨true, true, some none, some 2⟩ 2 rfl rfl rfl rfl).2.2 goodStopEnv⟩

/-- A start oracle whose session/start request fails (fetch throws). -/
def envNoNet : StartEnv :=
  { permission := true, audioConfigOk := true, sessionResult := none, audioResult := some 0 }

/-- A stop oracle whose remote stop notification fails. -/
def stopEnvNoNet : StopEnv :=
  { unloadOk := true, uri := some "file:a.m4a", remoteOk := false,
    itemWriteOk := true, queueWriteOk := true, ts := "T1" }

/-- A session that ended after its mode fell back to cloud. -/
def sAfterCloudSession : ScreenState :=
  step (Event.stop goodStopEnv) (step (Event.hb "1" "t1" true) sActive)

/-- C1 counterexample: stopping a recording session while the remote stop
notification fails writes no queue entry, surfaces no error (it even shows
the success toast), and resets sessionId and the handle, so no retry is
possible — the completed recording is silently dropped. -/
theorem spec_C1_counterexample :
    sActive.recordingState.isRecording = true
  ∧ sActive.recordingState.sessionId = some "S1"
  ∧ (step (Event.stop stopEnvNoNet) sActive).storage = []
  ∧ (step (Event.stop stopEnvNoNet) sActive).queue = []
  ∧ (step (Event.stop stopEnvNoNet) sActive).alerts = []
  ∧ (step (Event.stop stopEnvNoNet) sActive).recordingState.sessionId = none
  ∧ (step (Event.stop stopEnvNoNet) sActive).recording = none
  ∧ (step (Event.stop stopEnvNoNet) sActive).toasts
      = ["Recording saved. Processing in background..."] := by decide

/-- C1 (amended): stop is atomic only with respect to the capture-unload
step. When every step succeeds the session is fully finalized (remote stop
request sent, queue item with status pending_upload written, queue id
appended, state reset). When stopAndUnloadAsync fails, an error alert is
surfaced and sessionId and the capture handle survive, so a retry can
complete. But when the remote notification (or local persistence) fails,
queueRecordingForProcessing swallows the error and stopRecording still
resets all session state: no queue entry exists, no error is surfaced, and
the recording is silently dropped. -/
theorem spec_C1 :
    (∀ (s : ScreenState) (env : StopEnv) (a : Nat) (sid : String),
        s.recording = some a → s.recordingState.sessionId = some sid →
        env.unloadOk = true → env.remoteOk = true →
        env.itemWriteOk = true → env.queueWriteOk = true →
        (step (Event.stop env) s).stopRequests
            = s.stopRequests ++
              [{ sessionId := sid, final := true,
                 duration := s.recordingState.recordingTime,
                 fileUri := env.uri, markers := s.recordingState.markers }]
          ∧ (step (Event.stop env) s).storage
              = setItem s.storage ("recording_" ++ sid)
                  { sessionId := sid, uri := env.uri,
                    duration := s.recordingState.recordingTime,
                    markers := s.recordingState.markers,
                    timestamp := env.ts, status := "pending_upload" }
          ∧ (step (Event.stop env) s).queue = s.queue ++ [sid]
          ∧ (step (Event.stop env) s).recordingState.sessionId = none
          ∧ (step (Event.stop env) s).recording = none)
  ∧ (∀ (s : ScreenState) (env : StopEnv) (a : Nat) (sid : String),
        s.recording = some a → s.recordingState.sessionId = some sid →
        env.unloadOk = false →
        (step (Event.stop env) s).alerts = s.alerts ++ ["Failed to stop recording"]
          ∧ (step (Event.stop env) s).recordingState.sessionId = some sid
          ∧ (step (Event.stop env) s).recording = some a
          ∧ (step (Event.stop env) s).storage = s.storage)
  ∧ (∀ (s : ScreenState) (env : StopEnv) (a : Nat) (sid : String),
        s.recording = some a → s.recordingState.sessionId = some sid →
        env.unloadOk = true → env.remoteOk = false →
        (step (Event.stop env) s).storage = s.storage
          ∧ (step (Event.stop env) s).queue = s.queue
          ∧ (step (Event.stop env) s).alerts = s.alerts
          ∧ (step (Event.stop env) s).stopRequests = s.stopRequests
          ∧ (step (Event.stop env) s).recordingState.sessionId = none
          ∧ (step (Event.stop env) s).recording = none) := by
  refine ⟨?_, ?_, ?_⟩
  · intro s env a sid hr hs hu hrm hiw hqw
    refine ⟨?_, ?_, ?_, ?_, ?_⟩
    · rw [show step (Event.stop env) s = withEffect (stopRecording env) s from rfl,
        withEffect_stopRequests]
      simp [stopRecording, queueRecordingForProcessing, hr, hs, hu, hrm, hiw, hqw]
    · rw [show step (Event.stop env) s = withEffect (stopRecording env) s from rfl,
        withEffect_storage]
      simp [stopRecording, queueRecordingForProcessing, hr, hs, hu, hrm, hiw, hqw]
    · rw [show step (Event.stop env) s = withEffect (stopRecording env) s from rfl,
        withEffect_queue]
      simp [stopRecording, queueRecordingForProcessing, hr, hs, hu, hrm, hiw, hqw]
    · rw [show step (Event.stop env) s = withEffect (stopRecording env) s from rfl,
        withEffect_recordingState]
      simp [stopRecording, hr, hs, hu]
    · rw [show step (Event.stop env) s = withEffect (stopRecording env) s from rfl,
        withEffect_recording]
      simp [stopRecording, hr, hs, hu]
  · intro s env a sid hr hs hu
    refine ⟨?_, ?_, ?_, ?_⟩
    · rw [show step (Event.stop env) s = withEffect (stopRecording env) s from rfl,
        withEffect_alerts]
      simp [stopRecording, hr, hs, hu]
    · rw [show step (Event.stop env) s = withEffect (stopRecording env) s from rfl,
        withEffect_recordingState]
      simp [stopRecording, hr, hs, hu]
    · rw [show step (Event.stop env) s = withEffect (stopRecording env) s from rfl,
        withEffect_recording]
      simp [stopRecording, hr, hs, hu]
    · rw [show step (Event.stop env) s = withEffect (stopRecording env) s from rfl,
        withEffect_storage]
      simp [stopRecording, hr, hs, hu]
  · intro s env a sid hr hs hu hrm
    refine ⟨?_, ?_, ?_, ?_, ?_, ?_⟩
    · rw [show step (Event.stop env) s = withEffect (stopRecording env) s from rfl,
        withEffect_storage]
      simp [stopRecording, queueRecordingForProcessing, hr, hs, hu, hrm]
    · rw [show step (Event.stop env) s = withEffect (stopRecording env) s from rfl,
        withEffect_queue]
      simp [stopRecording, queueRecordingForProcessing, hr, hs, hu, hrm]
    · rw [show step (Event.stop env) s = withEffect (stopRecording env) s from rfl,
        withEffect_alerts]
      simp [stopRecording, queueRecordingForProcessing, hr, hs, hu, hrm]
    · rw [show step (Event.stop env) s = withEffect (stopRecording env) s from rfl,
        withEffect_stopRequests]
      simp [stopRecording, queueRecordingForProcessing, hr, hs, hu, hrm]
    · rw [show step (Event.stop env) s = withEffect (stopRecording env) s from rfl,
        withEffect_recordingState]
      simp [stopRecording, hr, hs, hu]
    · rw [show step (Event.stop env) s = withEffect (stopRecording env) s from rfl,
        withEffect_recording]
      simp [stopRecording, hr, hs, hu]

/-- C1 witness: concrete instances of the three stop outcomes. -/
theorem spec_C1_witness :
    (step (Event.stop goodStopEnv) sActive).queue = sActive.queue ++ ["S1"]
  ∧ (step (Event.stop { goodStopEnv with unloadOk := false }) sActive).alerts
      = sActive.alerts ++ ["Failed to stop recording"]
  ∧ (step (Event.stop stopEnvNoNet) sActive).storage = sActive.storage :=
  ⟨(spec_C1.1 sActive goodStopEnv 0 "S1" (by decide) (by decide) rfl rfl rfl rfl).2.2.1,
   (spec_C1.2.1 sActive { goodStopEnv with unloadOk := false } 0 "S1"
      (by decide) (by decide) rfl).1,
   (spec_C1.2.2 sActive stopEnvNoNet 0 "S1" (by decide) (by decide) rfl rfl).1⟩

/-- C4 counterexample: with the remote tracker unreachable at start (the
session/start fetch throws), start from the idle screen does not begin
capture and does not enter the Recording state, contradicting the claimed
local best-effort fallback. -/
theorem spec_C4_counterexample :
    (step (Event.start envNoNet) initState).recordingState.isRecording = false
  ∧ (step (Event.start envNoNet) initState).recording = none
  ∧ (step (Event.start envNoNet) initState).recordingState.sessionId = none
  ∧ (step (Event.start envNoNet) initState).alerts
      = ["Failed to start recording. Please try again."] := by decide

/-- C4 (amended): if the session/start network request fails, the whole
start fails: the catch block shows the error alert and nothing else
changes — no capture stream is started, no controller-chosen session id
exists, and the state stays Idle. -/
theorem spec_C4 : ∀ (s : ScreenState) (env : StartEnv),
    env.permission = true → env.audioConfigOk = true → env.sessionResult = none →
    step (Event.start env) s
      = { s with alerts := s.alerts ++ ["Failed to start recording. Please try again."] } := by
  intro s env hp hac hsr
  rcases env with ⟨p, ac, sr, ar⟩
  cases hp; cases hac; cases hsr
  show withEffect (startRecording _) s = _
  rw [withEffect_def]
  have hf : startRecording ⟨true, true, none, ar⟩ s
      = { s with alerts := s.alerts ++ ["Failed to start recording. Please try again."] } := rfl
  rw [hf]
  split
  · rfl
  case isFalse h => exact absurd rfl h

/-- C4 witness: the failing start applied to the initial state. -/
theorem spec_C4_witness :
    step (Event.start envNoNet) initState
      = { initState with
          alerts := initState.alerts ++ ["Failed to start recording. Please try again."] } :=
  spec_C4 initState envNoNet rfl rfl rfl

/-- C5 counterexample: in a paused session (isRecording true, isPaused
true) the heartbeat interval has been cleared, and a heartbeat tick changes
nothing — in particular no ping is sent — contradicting the claim that
pings continue every 10 seconds while paused. -/
theorem spec_C5_counterexample :
    sPaused.recordingState.isRecording = true
  ∧ sPaused.recordingState.isPaused = true
  ∧ sPaused.hb = none
  ∧ step (Event.hb "1" "t1" false) sPaused = sPaused
  ∧ step (Event.hb "1" "t1" true) sPaused = sPaused
  ∧ (step (Event.hb "1" "t1" false) sPaused).pings = sPaused.pings := by decide

/-- C5 (amended): the heartbeat interval exists only while isRecording is
true AND isPaused is false (pause clears it; this invariant holds initially
and is preserved by every event); while it exists, each 10-second tick
sends a ping containing the closure's sessionId, a device identifier
derived from the current clock, and a timestamp; with no interval a
heartbeat tick is a no-op. -/
theorem spec_C5 :
    HBInv initState
  ∧ (∀ (e : Event) (s : ScreenState), HBInv s → HBInv (step e s))
  ∧ (∀ (s : ScreenState) (c : HBClosure) (now ts : String) (fails : Bool),
        s.hb = some c →
        (step (Event.hb now ts fails) s).pings
          = s.pings ++ [{ sessionId := c.sessionId,
                          deviceId := "device_" ++ now, ts := ts }])
  ∧ (∀ (s : ScreenState) (now ts : String) (fails : Bool),
        s.hb = none → step (Event.hb now ts fails) s = s)
  ∧ heartbeatIntervalMs = 10000 := by
  refine ⟨?_, ?_, ?_, ?_, rfl⟩
  · intro h
    exact absurd h (by decide)
  · intro e s h
    exact HBInv_step e s h
  · intro s c now ts fails hhb
    have hstep : step (Event.hb now ts fails) s = heartbeatTick c now ts fails s := by
      simp [step, hhb]
    rw [hstep, heartbeatTick_pings]
  · intro s now ts fails hhb
    simp [step, hhb]

/-- C5 witness: a live session's heartbeat tick appends the ping built from
the closure snapshot, and the interval invariant survives a step. -/
theorem spec_C5_witness :
    (step (Event.hb "7" "T" false) sActive).pings
      = sActive.pings ++ [{ sessionId := "S1", deviceId := "device_7", ts := "T" }]
  ∧ step (Event.hb "9" "U" false) sPaused = sPaused :=
  ⟨spec_C5.2.2.1 sActive ⟨"S1", "local"⟩ "7" "T" false (by decide),
   spec_C5.2.2.2.1 sPaused "9" "U" false (by decide)⟩

/-- C6 counterexample: invoking the pause handler on a paused session is
not a no-op — it resumes: isPaused becomes false and the resumed toast is
shown. -/
theorem spec_C6_counterexample :
    sPaused.recordingState.isRecording = true
  ∧ sPaused.recordingState.isPaused = true
  ∧ (step (Event.pauseBtn true) sPaused).recordingState.isPaused = false
  ∧ (step (Event.pauseBtn true) sPaused).toasts
      = sPaused.toasts ++ ["Recording resumed"] := by decide

/-- C6 (amended): pauseRecording is a pause/resume toggle, not an
idempotent pause: whenever a capture handle exists and the awaited audio
call succeeds it flips isPaused, so calling it while paused resumes the
session (with the resumed toast); it is a no-op only when the capture
handle is null or the audio call throws. -/
theorem spec_C6 :
    (∀ (s : ScreenState) (a : Nat), s.recording = some a →
        (step (Event.pauseBtn true) s).recordingState.isPaused
          = !s.recordingState.isPaused)
  ∧ (∀ (s : ScreenState) (a : Nat), s.recording = some a →
        s.recordingState.isPaused = true →
        (step (Event.pauseBtn true) s).toasts = s.toasts ++ ["Recording resumed"])
  ∧ (∀ s : ScreenState, s.recording = none → step (Event.pauseBtn true) s = s) := by
  refine ⟨?_, ?_, ?_⟩
  · intro s a hr
    rw [show step (Event.pauseBtn true) s = withEffect (pauseRecording true) s from rfl,
      withEffect_recordingState]
    cases hp : s.recordingState.isPaused <;> simp [pauseRecording, hr, hp]
  · intro s a hr hp
    rw [show step (Event.pauseBtn true) s = withEffect (pauseRecording true) s from rfl,
      withEffect_toasts]
    simp [pauseRecording, hr, hp]
  · intro s hr
    exact withEffect_id_of_fix _ _ (by simp [pauseRecording, hr])

/-- C6 witness: the toggle applied to the concrete paused session. -/
theorem spec_C6_witness :
    (step (Event.pauseBtn true) sPaused).recordingState.isPaused
        = !sPaused.recordingState.isPaused
  ∧ (step (Event.pauseBtn true) sPaused).toasts
      = sPaused.toasts ++ ["Recording resumed"] :=
  ⟨spec_C6.1 sPaused 0 (by decide),
   spec_C6.2.1 sPaused 0 (by decide) (by decide)⟩

/-- C8 counterexample: after a session that fell back to cloud mode was
stopped, a fresh successful start leaves mode equal to cloud, not local —
start never resets mode. -/
theorem spec_C8_counterexample :
    sAfterCloudSession.recordingState.isRecording = false
  ∧ sAfterCloudSession.recordingState.sessionId = none
  ∧ sAfterCloudSession.recordingState.mode = "cloud"
  ∧ (step (Event.start goodStartEnv2) sAfterCloudSession).recordingState.isRecording = true
  ∧ (step (Event.start goodStartEnv2) sAfterCloudSession).recordingState.mode = "cloud" := by
  decide

/-- C8 (amended): neither start nor stop ever writes mode: both preserve
the controller's current mode, so a session started after a cloud-fallback
session begins with mode cloud; mode is local only because the initial
component state sets it so. -/
theorem spec_C8 :
    (∀ (s : ScreenState) (env : StartEnv),
        (step (Event.start env) s).recordingState.mode = s.recordingState.mode)
  ∧ (∀ (s : ScreenState) (env : StopEnv),
        (step (Event.stop env) s).recordingState.mode = s.recordingState.mode)
  ∧ initState.recordingState.mode = "local" := by
  refine ⟨?_, ?_, rfl⟩
  · intro s env
    rw [show step (Event.start env) s = withEffect (startRecording env) s from rfl,
      withEffect_recordingState]
    exact startRecording_mode env s
  · intro s env
    rw [show step (Event.stop env) s = withEffect (stopRecording env) s from rfl,
      withEffect_recordingState]
    exact stopRecording_mode env s

/-- C9 counterexample: startRecording invoked while a session is active is
not rejected: it replaces the active session (the sessionId changes), so
the start half of the claim fails at the function level. -/
theorem spec_C9_counterexample :
    sActive.recordingState.isRecording = true
  ∧ sActive.recordingState.sessionId = some "S1"
  ∧ (step (Event.start goodStartEnv2) sActive).recordingState.sessionId = some "S2"
  ∧ (step (Event.start goodStartEnv2) sActive).recording = some 1 := by decide

/-- C9 (amended): stop from Idle (no capture handle, or no sessionId) is a
silent no-op that leaves the state unchanged; startRecording itself has no
state guard and replaces an active session if invoked directly, but the
screen's only start entry point is the record/stop toggle button, which
dispatches to stopRecording whenever isRecording is true, so the UI never
invokes start from Recording or Paused. -/
theorem spec_C9 :
    (∀ (env : StopEnv) (s : ScreenState), s.recording = none →
        step (Event.stop env) s = s)
  ∧ (∀ (env : StopEnv) (s : ScreenState), s.recordingState.sessionId = none →
        step (Event.stop env) s = s)
  ∧ (∀ (sEnv : StartEnv) (tEnv : StopEnv) (s : ScreenState),
        s.recordingState.isRecording = true →
        pressRecordButton sEnv tEnv s = step (Event.stop tEnv) s)
  ∧ (∀ (sEnv : StartEnv) (tEnv : StopEnv) (s : ScreenState),
        s.recordingState.isRecording = false →
        pressRecordButton sEnv tEnv s = step (Event.start sEnv) s) := by
  refine ⟨?_, ?_, ?_, ?_⟩
  · intro env s h
    exact withEffect_id_of_fix _ _ (stopRecording_noRecording env s h)
  · intro env s h
    exact withEffect_id_of_fix _ _ (stopRecording_noSession env s h)
  · intro sEnv tEnv s h
    simp [pressRecordButton, h]
  · intro sEnv tEnv s h
    simp [pressRecordButton, h]

/-- C9 witness: stop pressed on the idle screen changes nothing, and the
toggle button on an active session dispatches to stop, not start. -/
theorem spec_C9_witness :
    step (Event.stop goodStopEnv) initState = initState
  ∧ pressRecordButton goodStartEnv2 goodStopEnv sActive
      = step (Event.stop goodStopEnv) sActive :=
  ⟨spec_C9.1 goodStopEnv initState rfl,
   spec_C9.2.2.1 goodStartEnv2 goodStopEnv sActive (by decide)⟩
